import Mathlib

/-!
Verification of the diabetes-predictor forms (src/app.py and the superseded
variant src/unnamed/part_000) against their design spec.

The embedding models the input-validation and risk-classification contract:
the feature list, the per-feature input-widget constraints, the collection
loop that builds the input vector, the predict-button handler (including the
predict_proba try/except), and the cached artifact load with the script
rerun model of the UI framework.

Numeric values are rationals (the form collects decimal numbers; the
integer-stepped widgets for Age and Pregnancies are modelled by the
denominator-one constraint).
-/

/-- A classification label: positive (likely diabetic) or negative. -/
inductive Label where
  | positive
  | negative
deriving DecidableEq, Repr

/-- The outcome of one classification: a label plus an optional
positive-class probability (absent when predict_proba is missing or fails). -/
structure Verdict where
  label : Label
  probability : Option ℚ
deriving DecidableEq, Repr

/-- The pre-trained model artifact. predict takes a batch of rows and returns
one class per row (the code indexes row 0 of the result). predictProba
returns none when the entry point is absent or raises (the code wraps the
whole probability block in try/except), otherwise a batch of per-class
probability rows [p_negative, p_positive]. -/
structure Classifier where
  predict : List (List ℚ) → List ℤ
  predictProba : List (List ℚ) → Option (List (List ℚ))

/-- The loaded artifacts: the model and the feature-name list
(diabetes_model.pkl and model_features.pkl). -/
abbrev Artifacts := Classifier × List String

/-- Keys of the FEATURE_EDUCATION dictionary in src/app.py. -/
def FEATURE_EDUCATION_keys : List String :=
  [ "pregnancies", "glucose", "bloodpressure", "insulin", "bmi", "age" ]

/-- Lowercasing of a feature name, modelling the feature.lower() call of
src/app.py line 108 (feature names are ASCII). -/
def strLower (s : String) : String :=
  String.mk (s.data.map Char.toLower)

/-- Admissible values of the input widget that src/app.py renders for a
feature: Age gets an integer widget with min 0 and max 120, Pregnancies an
integer widget with min 0 and max 20, every other feature (educational or
the fallback branch) a decimal widget with min 0.0 and no upper bound. -/
def widgetOk (feature : String) (v : ℚ) : Bool :=
  if FEATURE_EDUCATION_keys.contains (strLower feature) then
    if strLower feature = "age" then
      decide (0 ≤ v) && decide (v ≤ 120) && (v.den == 1)
    else if strLower feature = "pregnancies" then
      decide (0 ≤ v) && decide (v ≤ 20) && (v.den == 1)
    else
      decide (0 ≤ v)
  else
    decide (0 ≤ v)

/-- Admissible values of the input widgets of the superseded variant
(src/unnamed/part_000): every feature uses min_value=0.0, step 0.1, with no
upper bound and no integer constraint. -/
def widgetOk2 (_feature : String) (v : ℚ) : Bool :=
  decide (0 ≤ v)

/-- The hardcoded feature list of src/unnamed/part_000 (also the example
FeatureSpec of the spec). -/
def features2 : List String :=
  [ "Pregnancies", "Glucose", "BloodPressure", "Insulin", "BMI", "Age" ]

/-- The input-collection loop of src/app.py lines 106-159: starting from
inputs = [] it appends, for each feature in order, the value entered in that
feature's widget. -/
def collectLoop (vals : String → ℚ) : List String → List ℚ → List ℚ
  | [], acc => acc
  | f :: rest, acc => collectLoop vals rest (acc ++ [vals f])

/-- The finalized inputs list: the collection loop run over the whole
feature list. -/
def collectInputs (features : List String) (vals : String → ℚ) : List ℚ :=
  collectLoop vals features []

/-- The finalized PatientInput viewed as a feature-name/value association,
one entry per collected widget. -/
def collectPairs (features : List String) (vals : String → ℚ) :
    List (String × ℚ) :=
  features.map (fun f => (f, vals f))

/-- Look a feature up in a PatientInput association (none when absent). -/
def lookupFeature (input : List (String × ℚ)) (f : String) : Option ℚ :=
  (input.find? (fun p => p.1 == f)).map (fun p => p.2)

/-- What pressing the predict button produces. -/
inductive Outcome where
  | verdict (v : Verdict)
  | invalidValues
  | crash
deriving DecidableEq, Repr

/-- The probability block of src/app.py lines 188-193:
model.predict_proba(input_array)[0][1], with every failure (absent entry
point, raised exception, index error) caught by the bare except and turned
into no probability. -/
def probaResult (m : Classifier) (input_array : List (List ℚ)) : Option ℚ :=
  ((m.predictProba input_array).bind (fun rows => rows.get? 0)).bind
    (fun row => row.get? 1)

/-- The predict-button handler of src/app.py lines 162-196: if every
collected value is nonnegative, build the single-row array [inputs], take
prediction = model.predict(input_array)[0] (an out-of-bounds index here is
an uncaught exception), map 1 to positive and anything else to negative,
and attach the probability when available; otherwise show the
invalid-values error. -/
def pressPredict (m : Classifier) (inputs : List ℚ) : Outcome :=
  if inputs.all (fun x => decide (0 ≤ x)) then
    let input_array := [inputs]
    match (m.predict input_array).get? 0 with
    | some prediction =>
        Outcome.verdict
          ⟨ if prediction = 1 then Label.positive else Label.negative
          , probaResult m input_array ⟩
    | none => Outcome.crash
  else
    Outcome.invalidValues

/-- The predict-button handler of the superseded variant
(src/unnamed/part_000 lines 27-34): no validity check and no probability
block. -/
def pressPredict2 (m : Classifier) (inputs : List ℚ) : Outcome :=
  match (m.predict [inputs]).get? 0 with
  | some prediction =>
      Outcome.verdict
        ⟨ if prediction = 1 then Label.positive else Label.negative
        , none ⟩
  | none => Outcome.crash

/-- One full form interaction of src/app.py: collect one value per feature
and run the button handler on the collected vector. -/
def runForm (m : Classifier) (features : List String) (vals : String → ℚ) :
    Outcome :=
  pressPredict m (collectInputs features vals)

-- Helper lemmas about the collection loop.

theorem collectLoop_eq_append (vals : String → ℚ) (fs : List String) :
    ∀ acc, collectLoop vals fs acc = acc ++ fs.map vals := by
  induction fs with
  | nil => intro acc; simp [collectLoop]
  | cons f rest ih =>
      intro acc
      simp [collectLoop, ih, List.append_assoc]

theorem collectInputs_eq_map (features : List String) (vals : String → ℚ) :
    collectInputs features vals = features.map vals := by
  simp [collectInputs, collectLoop_eq_append]

-- Helper lemmas about the widget constraints.

theorem widgetOk_age (v : ℚ) :
    widgetOk "Age" v = (decide (0 ≤ v) && decide (v ≤ 120) && (v.den == 1)) := by
  have h2 : strLower "Age" = "age" := by decide
  unfold widgetOk
  rw [h2]
  rw [if_pos (by decide : FEATURE_EDUCATION_keys.contains "age" = true)]
  rw [if_pos rfl]

theorem widgetOk_pregnancies (v : ℚ) :
    widgetOk "Pregnancies" v
      = (decide (0 ≤ v) && decide (v ≤ 20) && (v.den == 1)) := by
  have h2 : strLower "Pregnancies" = "pregnancies" := by decide
  unfold widgetOk
  rw [h2]
  rw [if_pos (by decide : FEATURE_EDUCATION_keys.contains "pregnancies" = true)]
  rw [if_neg (by decide : ¬ ("pregnancies" = "age"))]
  rw [if_pos rfl]

theorem widgetOk_nonneg (f : String) (v : ℚ) (h : widgetOk f v = true) :
    0 ≤ v := by
  unfold widgetOk at h
  split at h
  · split at h
    · simp only [Bool.and_eq_true, decide_eq_true_eq] at h
      exact h.1.1
    · split at h
      · simp only [Bool.and_eq_true, decide_eq_true_eq] at h
        exact h.1.1
      · exact of_decide_eq_true h
  · exact of_decide_eq_true h

theorem widgetOk_neg (f : String) (v : ℚ) (h : v < 0) :
    widgetOk f v = false := by
  cases hw : widgetOk f v with
  | false => rfl
  | true => exact absurd (widgetOk_nonneg f v hw) (not_le.mpr h)

/-- State of the model files on disk at process start: both artifacts
present and well-formed, a file missing (joblib.load raises
FileNotFoundError), or a present but malformed file (joblib.load raises
some other exception). -/
inductive Disk where
  | ok (a : Artifacts)
  | missing
  | malformed

/-- The body of load_model_data in src/app.py lines 74-82: a missing file
is caught and turned into the (None, None) return; any other loading
exception propagates (outer none). -/
def load_model_data (d : Disk) : Option (Option Artifacts) :=
  match d with
  | Disk.ok a => some (some a)
  | Disk.missing => some none
  | Disk.malformed => none

/-- The st.cache_resource state: none before the first completed call,
some r once a call returned r (the framework then replays r on every later
script run without calling the body again). -/
structure AppState where
  cache : Option (Option Artifacts)

/-- load_model_data as called through st.cache_resource: a cached result is
returned as is; otherwise the body runs, and a normal return is cached
while a propagating exception leaves the cache empty. -/
def load_model_data_cached (d : Disk) (s : AppState) :
    Option (Option Artifacts) × AppState :=
  match s.cache with
  | some r => (some r, s)
  | none =>
      match load_model_data d with
      | some r => (some r, AppState.mk (some r))
      | none => (none, s)

/-- One script run of src/app.py in which the operator enters vals and
presses the predict button: load the artifacts through the cache; a load
exception aborts the run and the (None, None) result hits st.stop (line 93)
-- in both cases no outcome is produced; otherwise the form runs against
the loaded model and features. -/
def scriptRun (d : Disk) (s : AppState) (vals : String → ℚ) :
    Option Outcome × AppState :=
  match load_model_data_cached d s with
  | (none, s1) => (none, s1)
  | (some none, s1) => (none, s1)
  | (some (some a), s1) => (some (runForm a.1 a.2 vals), s1)

/-- The outcomes of a sequence of script runs from a given framework
state. -/
def outcomeTrace (d : Disk) : AppState → List (String → ℚ) → List (Option Outcome)
  | _, [] => []
  | s, v :: rest =>
      (scriptRun d s v).1 :: outcomeTrace d (scriptRun d s v).2 rest

/-- The artifacts each script run of a sequence observes from the cached
load. -/
def observedTrace (d : Disk) :
    AppState → List (String → ℚ) → List (Option (Option Artifacts))
  | _, [] => []
  | s, v :: rest =>
      (load_model_data_cached d s).1
        :: observedTrace d (scriptRun d s v).2 rest

/-- Framework state at process start: nothing cached yet. -/
def initState : AppState := AppState.mk none

/-- The operator entries of the spec's worked example: Pregnancies 0,
Glucose 85, BloodPressure 66, Insulin 0, BMI 26.6, Age 31. -/
def exVals : String → ℚ := fun f =>
  if f = "Pregnancies" then 0
  else if f = "Glucose" then 85
  else if f = "BloodPressure" then 66
  else if f = "Insulin" then 0
  else if f = "BMI" then mkRat 266 10
  else if f = "Age" then 31
  else 0

/-- A model without a probability entry point that always predicts class
0. -/
def sampleModel : Classifier :=
  Classifier.mk (fun _ => [0]) (fun _ => none)

/-- A model without a probability entry point that always predicts class
2, an output other than 0 and 1. -/
def model2 : Classifier :=
  Classifier.mk (fun _ => [2]) (fun _ => none)

/-- A model with a working probability entry point: class 1 with
probability row [3/10, 7/10]. -/
def probModel : Classifier :=
  Classifier.mk (fun _ => [1]) (fun _ => some [[mkRat 3 10, mkRat 7 10]])

/-- A model that answers class 1 exactly when predict receives the batch
[[0, 85, 66, 0, 26.6, 31]], so its verdict reveals whether that exact
vector reached the predict entry point. -/
def recorder : Classifier :=
  Classifier.mk
    (fun arg => if arg = [[0, 85, 66, 0, mkRat 266 10, 31]] then [1] else [0])
    (fun _ => none)

/-- Claim C1: for every finalized PatientInput the vector handed to the
Classifier is single-row, has one entry per FeatureSpec member, and is
ordered per FeatureSpec; with FeatureSpec = [Pregnancies, Glucose,
BloodPressure, Insulin, BMI, Age] and input {0, 85, 66, 0, 26.6, 31} the
collected vector is exactly [0, 85, 66, 0, 26.6, 31], and a classifier
that answers positive only on the batch [[0, 85, 66, 0, 26.6, 31]] indeed
answers positive, so exactly that vector reaches the predict entry
point. -/
theorem classify_vector_order (features : List String) (vals : String → ℚ) :
    (collectInputs features vals).length = features.length
    ∧ (∀ i : ℕ, (collectInputs features vals)[i]? = features[i]?.map vals)
    ∧ collectInputs features2 exVals = [0, 85, 66, 0, mkRat 266 10, 31]
    ∧ runForm recorder features2 exVals
        = Outcome.verdict (Verdict.mk Label.positive none) := by
  refine ⟨?_, ?_, by decide, by decide⟩
  · rw [collectInputs_eq_map]
    exact List.length_map features vals
  · intro i
    rw [collectInputs_eq_map]
    exact List.getElem?_map vals features i

/-- Claim C2: the verdict label is positive exactly when the classifier
prediction for the input equals 1, and negative for any other output
value. -/
theorem verdict_label_iff_one (m : Classifier) (inputs : List ℚ) (p : ℤ)
    (hv : inputs.all (fun x => decide (0 ≤ x)) = true)
    (hp : (m.predict [inputs]).get? 0 = some p) :
    pressPredict m inputs
      = Outcome.verdict
          (Verdict.mk (if p = 1 then Label.positive else Label.negative)
            (probaResult m [inputs]))
    ∧ ((if p = 1 then Label.positive else Label.negative) = Label.positive
        ↔ p = 1) := by
  constructor
  · simp only [pressPredict, hv, if_true, hp]
  · by_cases h : p = 1
    · simp [h]
    · simp [h]

/-- Witness for claim C2 at the concrete model that outputs class 2 on
input [1]: the verdict is negative (an output other than 1, not only 0,
maps to negative). -/
theorem verdict_label_iff_one_witness :
    pressPredict model2 [1]
      = Outcome.verdict (Verdict.mk Label.negative none) := by
  have h := verdict_label_iff_one model2 [1] 2 (by decide) rfl
  exact h.1.trans (by decide)

/-- Claim C4: the widget constraints reject Age = 150, reject
Pregnancies = 25, accept the boundary values Age = 0 and Age = 120, reject
every negative value for any feature, and reject every Age above 120 and
every Pregnancies above 20. -/
theorem validate_ranges (f : String) (v : ℚ) :
    widgetOk "Age" 150 = false
    ∧ widgetOk "Pregnancies" 25 = false
    ∧ widgetOk "Age" 0 = true
    ∧ widgetOk "Age" 120 = true
    ∧ (v < 0 → widgetOk f v = false)
    ∧ (120 < v → widgetOk "Age" v = false)
    ∧ (20 < v → widgetOk "Pregnancies" v = false) := by
  refine ⟨by decide, by decide, by decide, by decide, ?_, ?_, ?_⟩
  · intro h
    exact widgetOk_neg f v h
  · intro h
    rw [widgetOk_age]
    have hd : decide (v ≤ 120) = false := decide_eq_false (not_le.mpr h)
    simp [hd]
  · intro h
    rw [widgetOk_pregnancies]
    have hd : decide (v ≤ 20) = false := decide_eq_false (not_le.mpr h)
    simp [hd]

/-- Witness for claim C4: the hypotheses of its conditional parts hold at
BMI = -1, Age = 150 and Pregnancies = 25, and the widgets reject all
three. -/
theorem validate_ranges_witness :
    widgetOk "BMI" (-1) = false
    ∧ widgetOk "Age" 150 = false
    ∧ widgetOk "Pregnancies" 25 = false :=
  ⟨ (validate_ranges "BMI" (-1)).2.2.2.2.1 (by norm_num)
  , (validate_ranges "Age" 150).2.2.2.2.2.1 (by norm_num)
  , (validate_ranges "Pregnancies" 25).2.2.2.2.2.2 (by norm_num) ⟩

/-- Claim C9: the superseded variant accepts Age = 150 and the non-integer
Pregnancies = 2.5, both of which the latest variant's widget constraints
exclude, and it uses a hardcoded six-name feature list, so the two
variants' accepted-input sets differ. -/
theorem variants_differ :
    widgetOk2 "Age" 150 = true
    ∧ widgetOk "Age" 150 = false
    ∧ widgetOk2 "Pregnancies" (mkRat 5 2) = true
    ∧ widgetOk "Pregnancies" (mkRat 5 2) = false
    ∧ features2 = [ "Pregnancies", "Glucose", "BloodPressure", "Insulin"
                  , "BMI", "Age" ] := by
  decide

/-- Claim C10: values admitted by the widgets are all nonnegative, so the
post-collection validity check all(x >= 0) succeeds and pressing the
predict button never lands in the generic invalid-values error branch. -/
theorem predict_button_always_classifies (m : Classifier)
    (features : List String) (vals : String → ℚ)
    (h : ∀ f, f ∈ features → widgetOk f (vals f) = true) :
    (collectInputs features vals).all (fun x => decide (0 ≤ x)) = true
    ∧ pressPredict m (collectInputs features vals) ≠ Outcome.invalidValues := by
  have hall :
      (collectInputs features vals).all (fun x => decide (0 ≤ x)) = true := by
    rw [collectInputs_eq_map, List.all_eq_true]
    intro x hx
    rw [List.mem_map] at hx
    obtain ⟨f, hf, rfl⟩ := hx
    exact decide_eq_true (widgetOk_nonneg f (vals f) (h f hf))
  refine ⟨hall, ?_⟩
  unfold pressPredict
  rw [if_pos hall]
  dsimp only
  split <;> simp

/-- Witness for claim C10 at the example FeatureSpec and the worked-example
entries: the collected values pass the validity check and the handler does
not produce the invalid-values error. -/
theorem predict_button_always_classifies_witness :
    (collectInputs features2 exVals).all (fun x => decide (0 ≤ x)) = true
    ∧ pressPredict sampleModel (collectInputs features2 exVals)
        ≠ Outcome.invalidValues :=
  predict_button_always_classifies sampleModel features2 exVals (by decide)

/-- Claim C3: for a validated input the handler always returns a verdict
with the label set; when predict_proba works, the attached probability is
the positive-class entry of its first row, and when predict_proba is
absent or raises, the probability is unset yet the verdict still comes
back (the failure never becomes a classification error). -/
theorem classify_probability (m : Classifier) (inputs : List ℚ) (p : ℤ)
    (hv : inputs.all (fun x => decide (0 ≤ x)) = true)
    (hp : (m.predict [inputs]).get? 0 = some p) :
    pressPredict m inputs
      = Outcome.verdict
          (Verdict.mk (if p = 1 then Label.positive else Label.negative)
            (probaResult m [inputs]))
    ∧ (∀ rows row q, m.predictProba [inputs] = some rows
        → rows[0]? = some row → row[1]? = some q
        → probaResult m [inputs] = some q)
    ∧ (m.predictProba [inputs] = none → probaResult m [inputs] = none) := by
  refine ⟨?_, ?_, ?_⟩
  · simp only [pressPredict, hv, if_true, hp]
  · intro rows row q h1 h2 h3
    simp [probaResult, h1, h2, h3]
  · intro h1
    simp [probaResult, h1]

/-- Witness for claim C3 at a model with a working probability entry
point: the verdict carries P(positive) = 0.7, the second entry of the
probability row. -/
theorem classify_probability_witness :
    pressPredict probModel [1]
      = Outcome.verdict (Verdict.mk Label.positive (some (mkRat 7 10))) := by
  have h := classify_probability probModel [1] 1 (by decide) rfl
  exact h.1.trans (by decide)

/-- A PatientInput association with every feature of the example
FeatureSpec except Glucose, all values nonnegative. -/
def missingGlucose : List (String × ℚ) :=
  [ ("Pregnancies", 0), ("BloodPressure", 66), ("Insulin", 0)
  , ("BMI", mkRat 266 10), ("Age", 31) ]

/-- Counterexample to claim C5 as stated: on an input missing the Glucose
feature, the code's only runtime validity check (all values nonnegative)
still passes and the button handler performs a classification and returns
a verdict; nothing fails with a MissingFeature error. -/
theorem missing_feature_not_rejected :
    lookupFeature missingGlucose "Glucose" = none
    ∧ (missingGlucose.map (fun p => p.2)).all (fun x => decide (0 ≤ x)) = true
    ∧ pressPredict sampleModel (missingGlucose.map (fun p => p.2))
        = Outcome.verdict (Verdict.mk Label.negative none) := by
  decide

theorem lookupFeature_collectPairs (vals : String → ℚ) :
    ∀ (features : List String) (f : String), f ∈ features →
      lookupFeature (collectPairs features vals) f = some (vals f) := by
  intro features
  induction features with
  | nil =>
      intro f hf
      cases hf
  | cons g rest ih =>
      intro f hf
      by_cases hg : g = f
      · subst hg
        show lookupFeature ((g, vals g) :: collectPairs rest vals) g
          = some (vals g)
        unfold lookupFeature
        rw [List.find?_cons_of_pos _ (by simp)]
        rfl
      · have hf2 : f ∈ rest := by
          rcases List.mem_cons.mp hf with h1 | h1
          · exact absurd h1.symm hg
          · exact h1
        show lookupFeature ((g, vals g) :: collectPairs rest vals) f
          = some (vals f)
        unfold lookupFeature
        rw [List.find?_cons_of_neg _ (by simp [hg])]
        exact ih f hf2

/-- Claim C5 (amended): a finalized PatientInput missing a FeatureSpec
member cannot arise, because the collection loop supplies exactly one
widget value per FeatureSpec member -- the collected vector has one entry
per feature and every feature is present in the collected association;
the code itself contains no MissingFeature check. -/
theorem collected_input_complete (features : List String)
    (vals : String → ℚ) (f : String) (h : f ∈ features) :
    (collectInputs features vals).length = features.length
    ∧ lookupFeature (collectPairs features vals) f = some (vals f) := by
  constructor
  · rw [collectInputs_eq_map]
    exact List.length_map features vals
  · exact lookupFeature_collectPairs vals features f h

/-- Witness for the amended claim C5 at the example FeatureSpec: Glucose
is a member and is present in the collected input with its entered
value. -/
theorem collected_input_complete_witness :
    (collectInputs features2 exVals).length = features2.length
    ∧ lookupFeature (collectPairs features2 exVals) "Glucose"
        = some (exVals "Glucose") :=
  collected_input_complete features2 exVals "Glucose" (by decide)

/-- Big-step evaluation relation of the predict-button handler, one
constructor per control path of src/app.py lines 162-196: the
invalid-values error branch, the uncaught index error on an empty predict
result, and the classification branch. -/
inductive PredictStep (m : Classifier) (inputs : List ℚ) : Outcome → Prop where
  | invalid :
      inputs.all (fun x => decide (0 ≤ x)) = false →
      PredictStep m inputs Outcome.invalidValues
  | indexError :
      inputs.all (fun x => decide (0 ≤ x)) = true →
      (m.predict [inputs]).get? 0 = none →
      PredictStep m inputs Outcome.crash
  | classified (p : ℤ) :
      inputs.all (fun x => decide (0 ≤ x)) = true →
      (m.predict [inputs]).get? 0 = some p →
      PredictStep m inputs
        (Outcome.verdict
          (Verdict.mk (if p = 1 then Label.positive else Label.negative)
            (probaResult m [inputs])))

theorem predictStep_pressPredict (m : Classifier) (inputs : List ℚ) :
    PredictStep m inputs (pressPredict m inputs) := by
  unfold pressPredict
  cases hv : inputs.all (fun x => decide (0 ≤ x)) with
  | false =>
      rw [if_neg (by simp [hv])]
      exact PredictStep.invalid hv
  | true =>
      rw [if_pos rfl]
      dsimp only
      cases hp : (m.predict [inputs]).get? 0 with
      | none =>
          exact PredictStep.indexError hv hp
      | some p =>
          exact PredictStep.classified p hv hp

theorem predictStep_det (m : Classifier) (inputs : List ℚ) (o1 o2 : Outcome)
    (h1 : PredictStep m inputs o1) (h2 : PredictStep m inputs o2) :
    o1 = o2 := by
  cases h1 with
  | invalid hv1 =>
      cases h2 with
      | invalid hv2 => rfl
      | indexError hv2 hp2 => rw [hv1] at hv2; cases hv2
      | classified q hv2 hp2 => rw [hv1] at hv2; cases hv2
  | indexError hv1 hp1 =>
      cases h2 with
      | invalid hv2 => rw [hv1] at hv2; cases hv2
      | indexError hv2 hp2 => rfl
      | classified q hv2 hp2 => rw [hp1] at hp2; cases hp2
  | classified p hv1 hp1 =>
      cases h2 with
      | invalid hv2 => rw [hv1] at hv2; cases hv2
      | indexError hv2 hp2 => rw [hp2] at hp1; cases hp1
      | classified q hv2 hp2 =>
          rw [hp1] at hp2
          injection hp2 with h
          subst h
          rfl

/-- Claim C7: the classification of a valid PatientInput is deterministic
-- any two evaluations of the button handler on the same collected input
against the same classifier produce the same outcome, hence identical
verdicts (same label, same probability presence and value). -/
theorem classify_deterministic (m : Classifier) (features : List String)
    (vals : String → ℚ) (o1 o2 : Outcome)
    (_hv : ∀ f, f ∈ features → widgetOk f (vals f) = true)
    (h1 : PredictStep m (collectInputs features vals) o1)
    (h2 : PredictStep m (collectInputs features vals) o2) :
    o1 = o2 :=
  predictStep_det m (collectInputs features vals) o1 o2 h1 h2

/-- Witness for claim C7 at the example FeatureSpec, the worked-example
entries and a concrete classifier: two evaluations both yield the negative
verdict. -/
theorem classify_deterministic_witness :
    pressPredict sampleModel (collectInputs features2 exVals)
      = Outcome.verdict (Verdict.mk Label.negative none) := by
  have h0 : PredictStep sampleModel (collectInputs features2 exVals)
      (Outcome.verdict
        (Verdict.mk (if (0 : ℤ) = 1 then Label.positive else Label.negative)
          (probaResult sampleModel [collectInputs features2 exVals]))) :=
    PredictStep.classified 0 (by decide) (by decide)
  have h1 : PredictStep sampleModel (collectInputs features2 exVals)
      (Outcome.verdict (Verdict.mk Label.negative none)) := by
    have he :
        Outcome.verdict
          (Verdict.mk (if (0 : ℤ) = 1 then Label.positive else Label.negative)
            (probaResult sampleModel [collectInputs features2 exVals]))
          = Outcome.verdict (Verdict.mk Label.negative none) := by decide
    exact he ▸ h0
  exact classify_deterministic sampleModel features2 exVals _ _ (by decide)
    (predictStep_pressPredict sampleModel (collectInputs features2 exVals)) h1

-- Compute lemmas for the cached load and one script run.

theorem cachedLoad_hit (d : Disk) (s : AppState) (r : Option Artifacts)
    (hs : s.cache = some r) : load_model_data_cached d s = (some r, s) := by
  unfold load_model_data_cached
  rw [hs]

theorem cachedLoad_ok_first (a : Artifacts) (s : AppState)
    (hs : s.cache = none) :
    load_model_data_cached (Disk.ok a) s
      = (some (some a), AppState.mk (some (some a))) := by
  unfold load_model_data_cached load_model_data
  rw [hs]

theorem scriptRun_cached_none (d : Disk) (s : AppState) (v : String → ℚ)
    (hs : s.cache = some none) : scriptRun d s v = (none, s) := by
  unfold scriptRun
  rw [cachedLoad_hit d s none hs]

theorem scriptRun_cached_some (d : Disk) (s : AppState) (v : String → ℚ)
    (a : Artifacts) (hs : s.cache = some (some a)) :
    scriptRun d s v = (some (runForm a.1 a.2 v), s) := by
  unfold scriptRun
  rw [cachedLoad_hit d s (some a) hs]

theorem scriptRun_missing_first (s : AppState) (v : String → ℚ)
    (hs : s.cache = none) :
    scriptRun Disk.missing s v = (none, AppState.mk (some none)) := by
  unfold scriptRun load_model_data_cached load_model_data
  rw [hs]

theorem scriptRun_malformed_first (s : AppState) (v : String → ℚ)
    (hs : s.cache = none) :
    scriptRun Disk.malformed s v = (none, s) := by
  unfold scriptRun load_model_data_cached load_model_data
  rw [hs]

theorem scriptRun_ok_first (a : Artifacts) (s : AppState) (v : String → ℚ)
    (hs : s.cache = none) :
    scriptRun (Disk.ok a) s v
      = (some (runForm a.1 a.2 v), AppState.mk (some (some a))) := by
  unfold scriptRun
  rw [cachedLoad_ok_first a s hs]

theorem outcomeTrace_missing_aux (vs : List (String → ℚ)) :
    ∀ s : AppState, s.cache = none ∨ s.cache = some none →
      outcomeTrace Disk.missing s vs = vs.map (fun _ => none) := by
  induction vs with
  | nil =>
      intro s hs
      rfl
  | cons v rest ih =>
      intro s hs
      rcases hs with hs | hs
      · rw [outcomeTrace, scriptRun_missing_first s v hs]
        rw [ih (AppState.mk (some none)) (Or.inr rfl)]
        rfl
      · rw [outcomeTrace, scriptRun_cached_none Disk.missing s v hs]
        rw [ih s (Or.inr hs)]
        rfl

theorem outcomeTrace_malformed_aux (vs : List (String → ℚ)) :
    ∀ s : AppState, s.cache = none →
      outcomeTrace Disk.malformed s vs = vs.map (fun _ => none) := by
  induction vs with
  | nil =>
      intro s hs
      rfl
  | cons v rest ih =>
      intro s hs
      rw [outcomeTrace, scriptRun_malformed_first s v hs]
      rw [ih s hs]
      rfl

/-- Claim C6: when an artifact file is missing (the caught
FileNotFoundError path, surfaced as an error message and st.stop) or
malformed (an uncaught loading exception aborting the script run), every
script run of the process produces no outcome -- no classify call ever
succeeds and no verdict, fabricated or otherwise, is returned. -/
theorem model_unavailable_refuses (vs : List (String → ℚ)) :
    outcomeTrace Disk.missing initState vs = vs.map (fun _ => none)
    ∧ outcomeTrace Disk.malformed initState vs = vs.map (fun _ => none) :=
  ⟨ outcomeTrace_missing_aux vs initState (Or.inl rfl)
  , outcomeTrace_malformed_aux vs initState rfl ⟩

theorem traces_ok_aux (a : Artifacts) (vs : List (String → ℚ)) :
    ∀ s : AppState, s.cache = none ∨ s.cache = some (some a) →
      observedTrace (Disk.ok a) s vs = vs.map (fun _ => some (some a))
      ∧ outcomeTrace (Disk.ok a) s vs
          = vs.map (fun v => some (runForm a.1 a.2 v)) := by
  induction vs with
  | nil =>
      intro s hs
      exact ⟨rfl, rfl⟩
  | cons v rest ih =>
      intro s hs
      rcases hs with hs | hs
      · constructor
        · rw [observedTrace, cachedLoad_ok_first a s hs,
            scriptRun_ok_first a s v hs]
          rw [(ih (AppState.mk (some (some a))) (Or.inr rfl)).1]
          rfl
        · rw [outcomeTrace, scriptRun_ok_first a s v hs]
          rw [(ih (AppState.mk (some (some a))) (Or.inr rfl)).2]
          rfl
      · constructor
        · rw [observedTrace, cachedLoad_hit (Disk.ok a) s (some a) hs,
            scriptRun_cached_some (Disk.ok a) s v a hs]
          rw [(ih s (Or.inr hs)).1]
          rfl
        · rw [outcomeTrace, scriptRun_cached_some (Disk.ok a) s v a hs]
          rw [(ih s (Or.inr hs)).2]
          rfl

/-- Claim C8: with well-formed artifacts on disk, the body of
load_model_data runs once -- the first script run caches the loaded pair
and every run of the process observes that same cached Classifier and
FeatureSpec -- and no run modifies them: every outcome of the trace is
computed from the one loaded pair. -/
theorem artifacts_loaded_once (a : Artifacts) (vs : List (String → ℚ)) :
    observedTrace (Disk.ok a) initState vs = vs.map (fun _ => some (some a))
    ∧ outcomeTrace (Disk.ok a) initState vs
        = vs.map (fun v => some (runForm a.1 a.2 v)) :=
  traces_ok_aux a vs initState (Or.inl rfl)
